import Mathlib

/-!
# Verification of the Sahamyab scraper (`getFromSahamyab.py`)

A shallow embedding of the scraper's core: timestamp parsing (`to_datetime`),
the configuration-file refresh-token update (`update_config_refresh_token`),
the paginated fetch request body (`load_data_body`), one iteration of the
ingestion loop (`scrape_step`), the fueled ingestion loop (`scrape_loop`),
the driver (`scrape_sahamyab`) and the entry point (`main`).

External effects (the two HTTP endpoints and the interrupt signal) are
modelled as oracles: the content endpoint as a function from the fetch-call
index to an outcome, the authentication endpoint as a function from the
refresh token sent to an outcome.  The CSV file on disk is a list of rows;
the configuration file is absent, unparseable, or a parsed record.
-/

/-- A Python `datetime.datetime` value at second granularity
(the source never sets microseconds).  Python compares datetimes
field-lexicographically. -/
structure DateTime where
  year : Nat
  month : Nat
  day : Nat
  hour : Nat
  minute : Nat
  second : Nat
deriving DecidableEq, Repr

/-- Python's `datetime.__lt__`: lexicographic comparison of the fields. -/
def DateTime.ltb (a b : DateTime) : Bool :=
  if a.year = b.year then
    if a.month = b.month then
      if a.day = b.day then
        if a.hour = b.hour then
          if a.minute = b.minute then decide (a.second < b.second)
          else decide (a.minute < b.minute)
        else decide (a.hour < b.hour)
      else decide (a.day < b.day)
    else decide (a.month < b.month)
  else decide (a.year < b.year)

/-- Python `str.split` with a single-character separator (the source only
splits on the one-character separators `T`, `-`, `:` and `Z`), over the
string's character list.  `split_chars sep [] = [[]]`, as in Python, where
`''.split(c) == ['']`. -/
def split_chars (sep : Char) : List Char → List (List Char)
  | [] => [[]]
  | c :: cs =>
    match split_chars sep cs with
    | [] => [[c]]
    | p :: ps => if c = sep then [] :: p :: ps else (c :: p) :: ps

/-- Python `int()` on a string of decimal digits, over its character list. -/
def int_chars (l : List Char) : Nat :=
  l.foldl (fun a c => a * 10 + (c.toNat - 48)) 0

/-- `to_datetime` (lines 57-78): split the ISO-8601-like string on `T`,
the date part on `-`, the time part on `:`, strip the trailing `Z`, and
build a datetime from the integer fields. -/
def to_datetime (s : String) : DateTime :=
  let parts := split_chars 'T' s.data
  let date := split_chars '-' (parts.getD 0 [])
  let time_part := split_chars ':' (parts.getD 1 [])
  { year := int_chars (date.getD 0 [])
    month := int_chars (date.getD 1 [])
    day := int_chars (date.getD 2 [])
    hour := int_chars (time_part.getD 0 [])
    minute := int_chars (time_part.getD 1 [])
    second := int_chars ((split_chars 'Z' (time_part.getD 2 [])).getD 0 []) }

/-- One item of the content endpoint's `items` array, with the fields the
scraper reads.  `sendTime` is the raw ISO string; the scraper converts it
with `to_datetime` when writing. -/
structure Item where
  id : String
  sendTime : String
  senderUsername : String
  content : String
deriving DecidableEq, Repr

/-- One CSV row as written by `writer.writerow` (lines 262-271):
field order id, time, user, content, with `time` already converted. -/
structure Row where
  id : String
  time : DateTime
  user : String
  content : String
deriving DecidableEq, Repr

/-- The row built from one fetched item (lines 263-268). -/
def mkRow (it : Item) : Row :=
  { id := it.id, time := to_datetime it.sendTime,
    user := it.senderUsername, content := it.content }

/-- The parsed contents of `config.json` (see `main`, lines 299-327). -/
structure Config where
  file_name : String
  symbol : String
  error_thold : Nat
  ref_token : String
  start_date : String
deriving DecidableEq, Repr

/-- The configuration file on disk: absent (`FileNotFoundError` on open),
present but unparseable (`json.load` raises), or parsed. -/
inductive ConfigFile where
  | absent : ConfigFile
  | invalid : ConfigFile
  | valid : Config → ConfigFile
deriving DecidableEq, Repr

/-- `open(config_path)` followed by `json.load(f)`: fails when the file is
absent or its contents do not parse. -/
def json_load_config : ConfigFile → Except String Config
  | .absent => .error "FileNotFoundError"
  | .invalid => .error "JSONDecodeError"
  | .valid c => .ok c

/-- The `try`-body of `update_config_refresh_token` (lines 122-128):
read and parse the config file, set `ref_token`, rewrite the file.
Any failure surfaces as an exception of this body. -/
def update_config_attempt (f : ConfigFile) (new_ref_token : String) :
    Except String ConfigFile := do
  let c ← json_load_config f
  pure (.valid { c with ref_token := new_ref_token })

/-- `update_config_refresh_token` (lines 114-130): the attempt wrapped in
`try/except Exception`, which logs the error and leaves the file as it
was, returning normally either way. -/
def update_config_refresh_token (f : ConfigFile) (new_ref_token : String) :
    ConfigFile :=
  match update_config_attempt f new_ref_token with
  | .ok f2 => f2
  | .error _ => f

/-- The exception-level semantics of the whole `update_config_refresh_token`
function: the `except Exception` clause converts every error of the
attempt into a normal return with the file untouched. -/
def update_config_refresh_token_exc (f : ConfigFile) (new_ref_token : String) :
    Except String ConfigFile :=
  match update_config_attempt f new_ref_token with
  | .ok f2 => .ok f2
  | .error _ => .ok f

/-- The JSON request body built by `load_data` (line 151):
`{'tag': symbol} if n_page < 1 else {'id': str(l_id), 'tag': symbol}`. -/
inductive RequestBody where
  | tagOnly : String → RequestBody
  | idTag : String → String → RequestBody
deriving DecidableEq, Repr

/-- `load_data`'s request body as a function of the cursor (line 151). -/
def load_data_body (n_page : Nat) (l_id : String) (symbol : String) :
    RequestBody :=
  if n_page < 1 then .tagOnly symbol else .idTag l_id symbol

/-- Outcome of one `load_data` call as observed by the loop: the parsed
`items` list on success, a `RuntimeError` (non-200 status or missing
`items` field) otherwise, or a `KeyboardInterrupt` delivered while the
call is in flight. -/
inductive FetchOutcome where
  | items : List Item → FetchOutcome
  | error : FetchOutcome
  | interrupt : FetchOutcome
deriving DecidableEq, Repr

/-- Outcome of one `refresh_token` call (lines 81-111): the
`(token_type, access_token, refresh_token)` triple on HTTP 200, a
`RuntimeError` otherwise. -/
inductive AuthOutcome where
  | ok : String → String → String → AuthOutcome
  | error : AuthOutcome
deriving DecidableEq, Repr

/-- The mutable state of the ingestion loop in `scrape_sahamyab`:
the source's local variables (`last_id`, `date`, `page`, `token_type`,
`access_token`, `ref_token`, `error_count`, `repeat`), the rows written
to the CSV so far, the config file on disk, and instrumentation counting
the network calls made and the request bodies sent. -/
structure LoopState where
  last_id : String
  date : DateTime
  page : Nat
  token_type : String
  access_token : String
  ref_token : String
  error_count : Nat
  repeat_flag : Bool
  rows : List Row
  config : ConfigFile
  fetchCalls : Nat
  authCalls : Nat
  requests : List RequestBody
deriving DecidableEq, Repr

/-- Why control left the `while` loop.  `emptyPage` is the `IndexError`
raised by `items[-1]` on an empty page: it is not caught by the
`except KeyboardInterrupt` handler, so it aborts the loop (the `finally`
block then closes the file, and its `return` discards the exception). -/
inductive ExitReason where
  | boundary : ExitReason
  | authFail : ExitReason
  | errorCap : ExitReason
  | interrupted : ExitReason
  | emptyPage : ExitReason
deriving DecidableEq, Repr

/-- Result of one iteration of the loop body. -/
inductive StepResult where
  | next : LoopState → StepResult
  | exit : ExitReason → LoopState → StepResult
deriving DecidableEq, Repr

/-- One iteration of the `while` body (lines 235-277), entered with the
guard already true.  The fetch oracle is consulted at the current call
index; every branch first records the request body and the call. -/
def scrape_step (error_thold : Nat) (symbol : String)
    (fetchO : Nat → FetchOutcome) (authO : String → AuthOutcome)
    (s : LoopState) : StepResult :=
  let body := load_data_body s.page s.last_id symbol
  let s := { s with fetchCalls := s.fetchCalls + 1,
                    requests := s.requests ++ [body] }
  match fetchO (s.fetchCalls - 1) with
  | .interrupt => .exit .interrupted s
  | .error =>
    let s := { s with error_count := s.error_count + 1 }
    if s.error_count = error_thold then
      match authO s.ref_token with
      | .ok tt ac rt =>
        .next { s with token_type := tt, access_token := ac, ref_token := rt,
                       config := update_config_refresh_token s.config rt,
                       authCalls := s.authCalls + 1 }
      | .error => .exit .authFail { s with authCalls := s.authCalls + 1 }
    else if error_thold + 5 ≤ s.error_count then
      .exit .errorCap s
    else
      .next s
  | .items l =>
    match l with
    | [] => .exit .emptyPage s
    | i :: is =>
      let last_item := (i :: is).getLastD i
      if s.last_id = last_item.id then
        .next { s with repeat_flag := true }
      else
        .next { s with last_id := last_item.id,
                       rows := s.rows ++ (i :: is).map mkRow,
                       date := to_datetime last_item.sendTime,
                       repeat_flag := false,
                       page := s.page + 1,
                       error_count := 0 }

/-- Result of running the loop with a given amount of fuel.  `fuelOut`
means the model ran out of fuel while the program would still be looping. -/
inductive RunResult where
  | done : ExitReason → LoopState → RunResult
  | fuelOut : LoopState → RunResult
deriving DecidableEq, Repr

/-- The final loop state regardless of how the run ended. -/
def RunResult.state : RunResult → LoopState
  | .done _ s => s
  | .fuelOut s => s

/-- The exit reason, when the loop actually exited (rather than the model
running out of fuel). -/
def RunResult.reason? : RunResult → Option ExitReason
  | .done r _ => some r
  | .fuelOut _ => none

/-- The `while date > start_date` loop (lines 234-277), fueled. -/
def scrape_loop (error_thold : Nat) (symbol : String) (start_date : DateTime)
    (fetchO : Nat → FetchOutcome) (authO : String → AuthOutcome) :
    Nat → LoopState → RunResult
  | 0, s => .fuelOut s
  | fuel + 1, s =>
    if DateTime.ltb start_date s.date then
      match scrape_step error_thold symbol fetchO authO s with
      | .next s2 => scrape_loop error_thold symbol start_date fetchO authO fuel s2
      | .exit r s2 => .done r s2
    else
      .done .boundary s

/-- The terminal report of lines 286-290 as written: error-threshold
exhaustion when `error_count >= error_thold`, success otherwise.
Unreachable in the source: the `return` inside the `finally` block
(line 284) ends the function before these lines can run. -/
inductive TerminalReport where
  | errorTerminated : TerminalReport
  | success : TerminalReport
deriving DecidableEq, Repr

/-- What lines 286-290 would report, were they reachable. -/
def terminal_report (error_thold : Nat) (s : LoopState) : TerminalReport :=
  if error_thold ≤ s.error_count then .errorTerminated else .success

/-- How `scrape_sahamyab` ended. -/
inductive ScrapeOutcome where
  | initialAuthFailed : ScrapeOutcome
  | resumeCrashed : ScrapeOutcome
  | finished : ExitReason → LoopState → ScrapeOutcome
  | outOfFuel : LoopState → ScrapeOutcome
deriving DecidableEq, Repr

/-- The observable result of one `scrape_sahamyab` run: how it ended, the
destination CSV's data rows afterwards (`none` when the file was never
created), whether `close()` ran on an opened handle, the config file
afterwards, and the terminal report emitted (always `none`: the `return`
inside `finally` preempts lines 286-290 on every path). -/
structure ScrapeResult where
  outcome : ScrapeOutcome
  disk : Option (List Row)
  fileClosed : Bool
  configFS : ConfigFile
  report : Option TerminalReport
deriving DecidableEq, Repr

/-- The final loop state carried by the outcome, when the loop was reached. -/
def ScrapeOutcome.state? : ScrapeOutcome → Option LoopState
  | .finished _ s => some s
  | .outOfFuel s => some s
  | _ => none

/-- The loop state for a fresh destination file (write mode, lines
194-200 and 219): page 0, empty `last_id`. -/
def fresh_state (tt ac rt : String) (now : DateTime) (cfg : ConfigFile) :
    LoopState :=
  { last_id := "", date := now, page := 0, token_type := tt,
    access_token := ac, ref_token := rt, error_count := 0,
    repeat_flag := false, rows := [], config := cfg, fetchCalls := 0,
    authCalls := 0, requests := [] }

/-- The loop state when resuming from a destination file with prior data
rows (append mode, lines 213-217): `last_id` is the id of the file's last
row (`df['id'].iloc[-1]`) and the page counter moves off zero. -/
def resume_state (tt ac rt : String) (now : DateTime) (cfg : ConfigFile)
    (r : Row) (rs : List Row) : LoopState :=
  { last_id := ((r :: rs).getLastD r).id, date := now, page := 1,
    token_type := tt, access_token := ac, ref_token := rt,
    error_count := 0, repeat_flag := false, rows := [], config := cfg,
    fetchCalls := 0, authCalls := 0, requests := [] }

/-- Lines 194-219: the loop state on entry.  A fresh destination starts in
write mode; a destination with prior rows is resumed in append mode; a
destination that exists but has no data rows makes `df['id'].iloc[-1]`
raise an uncaught `IndexError` (`none` here). -/
def initial_state (tt ac rt : String) (now : DateTime) (cfg : ConfigFile) :
    Option (List Row) → Option LoopState
  | none => some (fresh_state tt ac rt now cfg)
  | some [] => none
  | some (r :: rs) => some (resume_state tt ac rt now cfg r rs)

/-- Lines 278-290: however the loop ended, the `finally` block closes the
file and `return`s, so the exception (if any) is discarded, the rows
written are on disk after the prior ones, and no terminal report is
emitted.  When fuel ran out the program is still looping: the handle is
still open. -/
def scrape_finish (priorRows : List Row) :
    RunResult → ScrapeResult
  | .done r s =>
    { outcome := .finished r s, disk := some (priorRows ++ s.rows),
      fileClosed := true, configFS := s.config, report := none }
  | .fuelOut s =>
    { outcome := .outOfFuel s, disk := some (priorRows ++ s.rows),
      fileClosed := false, configFS := s.config, report := none }

/-- `scrape_sahamyab` (lines 175-290): refresh the token (returning at
once on failure, before the destination is touched), persist the rotated
refresh token, seed the cursor from the destination file, then run the
loop and close the file. -/
def scrape_sahamyab (symbol ref_token : String) (error_thold : Nat)
    (start_date : DateTime) (config0 : ConfigFile)
    (priorDisk : Option (List Row)) (now : DateTime)
    (fetchO : Nat → FetchOutcome) (authO : String → AuthOutcome)
    (fuel : Nat) : ScrapeResult :=
  match authO ref_token with
  | .error =>
    { outcome := .initialAuthFailed, disk := priorDisk, fileClosed := false,
      configFS := config0, report := none }
  | .ok tt ac rt =>
    let cfg1 := update_config_refresh_token config0 rt
    match initial_state tt ac rt now cfg1 priorDisk with
    | none =>
      { outcome := .resumeCrashed, disk := priorDisk, fileClosed := false,
        configFS := cfg1, report := none }
    | some s0 =>
      scrape_finish (priorDisk.getD [])
        (scrape_loop error_thold symbol start_date fetchO authO fuel s0)

/-- The default configuration synthesized by `main` when `config.json` is
absent (lines 304-311). -/
def default_config : Config :=
  { file_name := "data.csv", symbol := "شبندر", error_thold := 5,
    ref_token := "", start_date := "2020-08-01" }

/-- `datetime.strptime(s, "%Y-%m-%d")` as used by `main` (line 317). -/
def parse_start_date (s : String) : DateTime :=
  let p := split_chars '-' s.data
  { year := int_chars (p.getD 0 []),
    month := int_chars (p.getD 1 []),
    day := int_chars (p.getD 2 []),
    hour := 0, minute := 0, second := 0 }

/-- The observable result of `main`: the config file afterwards and the
scrape's result (`none` when `main` crashed before scraping: an existing
but unparseable `config.json` raises outside the `except FileNotFoundError`
handler). -/
structure MainResult where
  configFS : ConfigFile
  scraped : Option ScrapeResult
deriving DecidableEq, Repr

/-- `main` (lines 293-327): load `config.json`; when absent, synthesize
and persist the default configuration and continue with it; then scrape
with the configured parameters.  (Named `py_main` because `main` is
reserved for executables in Lean.) -/
def py_main (config0 : ConfigFile) (priorDisk : Option (List Row))
    (now : DateTime) (fetchO : Nat → FetchOutcome)
    (authO : String → AuthOutcome) (fuel : Nat) : MainResult :=
  match config0 with
  | .invalid => { configFS := .invalid, scraped := none }
  | .absent =>
    let cfg := default_config
    let r := scrape_sahamyab cfg.symbol cfg.ref_token cfg.error_thold
      (parse_start_date cfg.start_date) (.valid cfg) priorDisk now
      fetchO authO fuel
    { configFS := r.configFS, scraped := some r }
  | .valid cfg =>
    let r := scrape_sahamyab cfg.symbol cfg.ref_token cfg.error_thold
      (parse_start_date cfg.start_date) (.valid cfg) priorDisk now
      fetchO authO fuel
    { configFS := r.configFS, scraped := some r }

/-- The last item (`items[-1]`) of the `m`-th page `hd m :: tl m` of a
page schedule given with its head split off (so every page is nonempty
by construction). -/
def page_last (hd : Nat → Item) (tl : Nat → List Item) (m : Nat) : Item :=
  (hd m :: tl m).getLastD (hd m)

/-- The loop state after `m` iterations from `s0`, each of which fetched
its scheduled page and took the new-content path of the loop body. -/
def chainState (symbol : String) (hd : Nat → Item) (tl : Nat → List Item)
    (s0 : LoopState) : Nat → LoopState
  | 0 => s0
  | m + 1 =>
    let s := chainState symbol hd tl s0 m
    { s with fetchCalls := s.fetchCalls + 1,
             requests := s.requests ++
               [load_data_body s.page s.last_id symbol],
             last_id := (page_last hd tl m).id,
             rows := s.rows ++ (hd m :: tl m).map mkRow,
             date := to_datetime (page_last hd tl m).sendTime,
             repeat_flag := false,
             page := s.page + 1,
             error_count := 0 }

/-- The loop state after `j` iterations from `s0`, each of which failed
its fetch and took the plain retry path (neither threshold reached). -/
def fail_state (symbol : String) (s0 : LoopState) : Nat → LoopState
  | 0 => s0
  | j + 1 =>
    let s := fail_state symbol s0 j
    { s with fetchCalls := s.fetchCalls + 1,
             requests := s.requests ++
               [load_data_body s.page s.last_id symbol],
             error_count := s.error_count + 1 }

/-- A concrete fresh loop state used by witnesses and counterexamples. -/
def wstate : LoopState :=
  { last_id := "", date := ⟨2025, 1, 1, 0, 0, 0⟩, page := 0,
    token_type := "Bearer", access_token := "a0", ref_token := "r0",
    error_count := 0, repeat_flag := false, rows := [],
    config := ConfigFile.absent, fetchCalls := 0, authCalls := 0,
    requests := [] }

/-- The state carried by a step result. -/
def StepResult.state : StepResult → LoopState
  | .next s => s
  | .exit _ s => s

/-- The final loop state of the concrete resumed run used as C7's
witness: one fetch was made, carrying the resumed id. -/
def c7sF : LoopState :=
  { last_id := "42", date := ⟨2025, 1, 1, 0, 0, 0⟩, page := 1,
    token_type := "B", access_token := "a1", ref_token := "r1",
    error_count := 0, repeat_flag := false, rows := [],
    config := ConfigFile.absent, fetchCalls := 1, authCalls := 0,
    requests := [.idTag "42" "X"] }

/-- A two-page schedule for the C5 and C8 witnesses: page 0 is dated
after the default boundary, page 1 before it. -/
def w5hd : Nat → Item := fun m =>
  if m = 0 then ⟨"A", "2020-09-01T10:00:00Z", "u", "c"⟩
  else ⟨"B", "2020-07-01T10:00:00Z", "u", "c"⟩

/-- The (empty) tails of the witness pages. -/
def w5tl : Nat → List Item := fun _ => []

/-- The content endpoint serving the witness schedule. -/
def w5fetch : Nat → FetchOutcome := fun n =>
  if n = 0 then .items [⟨"A", "2020-09-01T10:00:00Z", "u", "c"⟩]
  else .items [⟨"B", "2020-07-01T10:00:00Z", "u", "c"⟩]

/-- The state in which an in-flight fetch was interrupted: the request
was sent and counted, nothing else changed before the abort. -/
def interrupted_state (symbol : String) (s : LoopState) : LoopState :=
  { s with fetchCalls := s.fetchCalls + 1,
           requests := s.requests ++
             [load_data_body s.page s.last_id symbol] }

/-- The content endpoint for the C8 witness: one good page, then an
interrupt. -/
def w8fetch : Nat → FetchOutcome := fun n =>
  if n = 0 then .items [⟨"A", "2020-09-01T10:00:00Z", "u", "c"⟩]
  else .interrupt

/-- The authentication endpoint for the C8 witness. -/
def w8auth : String → AuthOutcome := fun t =>
  if t = "r0" then .ok "B" "a1" "r1" else .error

/-! ## Lemmas: one iteration of the loop body -/


/-- A `KeyboardInterrupt` during the fetch aborts the iteration with the
state otherwise unchanged. -/
theorem scrape_step_interrupt (error_thold : Nat) (symbol : String)
    (fetchO : Nat → FetchOutcome) (authO : String → AuthOutcome)
    (s : LoopState) (h : fetchO s.fetchCalls = .interrupt) :
    scrape_step error_thold symbol fetchO authO s =
      .exit .interrupted
        { s with fetchCalls := s.fetchCalls + 1,
                 requests := s.requests ++
                   [load_data_body s.page s.last_id symbol] } := by
  simp [scrape_step, h]

/-- A successful fetch of a nonempty page whose last id is new: the cursor
advances, the page is written, the date moves to the last item's
timestamp, the repeat flag clears and the error count resets. -/
theorem scrape_step_success (error_thold : Nat) (symbol : String)
    (fetchO : Nat → FetchOutcome) (authO : String → AuthOutcome)
    (s : LoopState) (i : Item) (is : List Item)
    (h : fetchO s.fetchCalls = .items (i :: is))
    (hid : s.last_id ≠ ((i :: is).getLastD i).id) :
    scrape_step error_thold symbol fetchO authO s =
      .next
        { s with fetchCalls := s.fetchCalls + 1,
                 requests := s.requests ++
                   [load_data_body s.page s.last_id symbol],
                 last_id := ((i :: is).getLastD i).id,
                 rows := s.rows ++ (i :: is).map mkRow,
                 date := to_datetime ((i :: is).getLastD i).sendTime,
                 repeat_flag := false,
                 page := s.page + 1,
                 error_count := 0 } := by
  simp only [List.getLastD_eq_getLast?] at hid
  simp [scrape_step, h, hid]

/-- A successful fetch whose page repeats the last seen id: only the
repeat flag is set (besides the recorded call). -/
theorem scrape_step_stall (error_thold : Nat) (symbol : String)
    (fetchO : Nat → FetchOutcome) (authO : String → AuthOutcome)
    (s : LoopState) (i : Item) (is : List Item)
    (h : fetchO s.fetchCalls = .items (i :: is))
    (hid : s.last_id = ((i :: is).getLastD i).id) :
    scrape_step error_thold symbol fetchO authO s =
      .next
        { s with fetchCalls := s.fetchCalls + 1,
                 requests := s.requests ++
                   [load_data_body s.page s.last_id symbol],
                 repeat_flag := true } := by
  simp only [List.getLastD_eq_getLast?] at hid
  simp [scrape_step, h, hid]

/-- A successful fetch of an empty page: `items[-1]` raises `IndexError`,
which the loop's handlers do not catch, so the iteration aborts the loop;
nothing else in the state changes. -/
theorem scrape_step_empty (error_thold : Nat) (symbol : String)
    (fetchO : Nat → FetchOutcome) (authO : String → AuthOutcome)
    (s : LoopState) (h : fetchO s.fetchCalls = .items []) :
    scrape_step error_thold symbol fetchO authO s =
      .exit .emptyPage
        { s with fetchCalls := s.fetchCalls + 1,
                 requests := s.requests ++
                   [load_data_body s.page s.last_id symbol] } := by
  simp [scrape_step, h]

/-- A failed fetch below both thresholds: the error count increments and
the same page is retried. -/
theorem scrape_step_error_retry (error_thold : Nat) (symbol : String)
    (fetchO : Nat → FetchOutcome) (authO : String → AuthOutcome)
    (s : LoopState) (h : fetchO s.fetchCalls = .error)
    (hne : s.error_count + 1 ≠ error_thold)
    (hlt : s.error_count + 1 < error_thold + 5) :
    scrape_step error_thold symbol fetchO authO s =
      .next
        { s with fetchCalls := s.fetchCalls + 1,
                 requests := s.requests ++
                   [load_data_body s.page s.last_id symbol],
                 error_count := s.error_count + 1 } := by
  simp [scrape_step, h, hne]
  omega

/-- A failed fetch that brings the error count exactly to the threshold,
with a successful reauthentication: the credential rotates, the new
refresh token is persisted, and the same page is retried. -/
theorem scrape_step_error_reauth_ok (error_thold : Nat) (symbol : String)
    (fetchO : Nat → FetchOutcome) (authO : String → AuthOutcome)
    (s : LoopState) (tt ac rt : String)
    (h : fetchO s.fetchCalls = .error)
    (heq : s.error_count + 1 = error_thold)
    (ha : authO s.ref_token = .ok tt ac rt) :
    scrape_step error_thold symbol fetchO authO s =
      .next
        { s with fetchCalls := s.fetchCalls + 1,
                 requests := s.requests ++
                   [load_data_body s.page s.last_id symbol],
                 error_count := s.error_count + 1,
                 token_type := tt, access_token := ac, ref_token := rt,
                 config := update_config_refresh_token s.config rt,
                 authCalls := s.authCalls + 1 } := by
  simp [scrape_step, h, heq, ha]

/-- A failed fetch that brings the error count exactly to the threshold,
with a failed reauthentication: the loop breaks. -/
theorem scrape_step_error_reauth_fail (error_thold : Nat) (symbol : String)
    (fetchO : Nat → FetchOutcome) (authO : String → AuthOutcome)
    (s : LoopState)
    (h : fetchO s.fetchCalls = .error)
    (heq : s.error_count + 1 = error_thold)
    (ha : authO s.ref_token = .error) :
    scrape_step error_thold symbol fetchO authO s =
      .exit .authFail
        { s with fetchCalls := s.fetchCalls + 1,
                 requests := s.requests ++
                   [load_data_body s.page s.last_id symbol],
                 error_count := s.error_count + 1,
                 authCalls := s.authCalls + 1 } := by
  simp [scrape_step, h, heq, ha]

/-- A failed fetch that brings the error count to the fatal cap: the loop
breaks without any reauthentication attempt. -/
theorem scrape_step_error_cap (error_thold : Nat) (symbol : String)
    (fetchO : Nat → FetchOutcome) (authO : String → AuthOutcome)
    (s : LoopState)
    (h : fetchO s.fetchCalls = .error)
    (hne : s.error_count + 1 ≠ error_thold)
    (hge : error_thold + 5 ≤ s.error_count + 1) :
    scrape_step error_thold symbol fetchO authO s =
      .exit .errorCap
        { s with fetchCalls := s.fetchCalls + 1,
                 requests := s.requests ++
                   [load_data_body s.page s.last_id symbol],
                 error_count := s.error_count + 1 } := by
  simp [scrape_step, h, hne, hge]

/-! ## Lemmas: unfolding the fueled loop -/

/-- With the boundary reached, the loop exits before fetching. -/
theorem scrape_loop_boundary (error_thold : Nat) (symbol : String)
    (start_date : DateTime) (fetchO : Nat → FetchOutcome)
    (authO : String → AuthOutcome) (fuel : Nat) (s : LoopState)
    (h : DateTime.ltb start_date s.date = false) :
    scrape_loop error_thold symbol start_date fetchO authO (fuel + 1) s =
      .done .boundary s := by
  simp [scrape_loop, h]

/-- With the guard true and the step continuing, one unit of fuel is
consumed. -/
theorem scrape_loop_next (error_thold : Nat) (symbol : String)
    (start_date : DateTime) (fetchO : Nat → FetchOutcome)
    (authO : String → AuthOutcome) (fuel : Nat) (s s2 : LoopState)
    (hg : DateTime.ltb start_date s.date = true)
    (hs : scrape_step error_thold symbol fetchO authO s = .next s2) :
    scrape_loop error_thold symbol start_date fetchO authO (fuel + 1) s =
      scrape_loop error_thold symbol start_date fetchO authO fuel s2 := by
  simp [scrape_loop, hg, hs]

/-- With the guard true and the step exiting, the loop is done. -/
theorem scrape_loop_exit (error_thold : Nat) (symbol : String)
    (start_date : DateTime) (fetchO : Nat → FetchOutcome)
    (authO : String → AuthOutcome) (fuel : Nat) (s s2 : LoopState)
    (r : ExitReason)
    (hg : DateTime.ltb start_date s.date = true)
    (hs : scrape_step error_thold symbol fetchO authO s = .exit r s2) :
    scrape_loop error_thold symbol start_date fetchO authO (fuel + 1) s =
      .done r s2 := by
  simp [scrape_loop, hg, hs]

/-! ## Lemmas: runs whose fetches all succeed with fresh nonempty pages -/



theorem chainState_fetchCalls (symbol : String) (hd : Nat → Item)
    (tl : Nat → List Item) (s0 : LoopState) (m : Nat) :
    (chainState symbol hd tl s0 m).fetchCalls = s0.fetchCalls + m := by
  induction m with
  | zero => rfl
  | succ m ih => simp [chainState, ih]; omega

theorem chainState_date_succ (symbol : String) (hd : Nat → Item)
    (tl : Nat → List Item) (s0 : LoopState) (m : Nat) :
    (chainState symbol hd tl s0 (m + 1)).date =
      to_datetime (page_last hd tl m).sendTime := by
  simp [chainState]

theorem chainState_last_id_succ (symbol : String) (hd : Nat → Item)
    (tl : Nat → List Item) (s0 : LoopState) (m : Nat) :
    (chainState symbol hd tl s0 (m + 1)).last_id =
      (page_last hd tl m).id := by
  simp [chainState]

theorem chainState_rows (symbol : String) (hd : Nat → Item)
    (tl : Nat → List Item) (s0 : LoopState) (m : Nat) :
    (chainState symbol hd tl s0 m).rows =
      s0.rows ++ (List.range m).flatMap (fun j => (hd j :: tl j).map mkRow) := by
  induction m with
  | zero => simp [chainState]
  | succ m ih => simp [chainState, ih, List.range_succ]

/-- Running the loop down a schedule of fresh nonempty pages consumes one
unit of fuel per page and lands on the corresponding chain state. -/
theorem scrape_loop_chain (error_thold : Nat) (symbol : String)
    (start_date : DateTime) (fetchO : Nat → FetchOutcome)
    (authO : String → AuthOutcome) (hd : Nat → Item) (tl : Nat → List Item)
    (s0 : LoopState) (n : Nat)
    (hc : ∀ m, m < n → fetchO (s0.fetchCalls + m) = .items (hd m :: tl m))
    (hg : ∀ m, m < n →
      DateTime.ltb start_date (chainState symbol hd tl s0 m).date = true)
    (hf : ∀ m, m < n →
      (chainState symbol hd tl s0 m).last_id ≠ (page_last hd tl m).id) :
    ∀ fuel, scrape_loop error_thold symbol start_date fetchO authO (n + fuel) s0 =
      scrape_loop error_thold symbol start_date fetchO authO fuel
        (chainState symbol hd tl s0 n) := by
  induction n with
  | zero =>
    intro fuel
    rw [Nat.zero_add]
    rfl
  | succ n ih =>
    intro fuel
    have h1 : n + 1 + fuel = n + (fuel + 1) := by omega
    rw [h1, ih (fun m hm => hc m (by omega)) (fun m hm => hg m (by omega))
      (fun m hm => hf m (by omega))]
    have hO : fetchO ((chainState symbol hd tl s0 n).fetchCalls) =
        .items (hd n :: tl n) := by
      rw [chainState_fetchCalls]
      exact hc n (by omega)
    have hstep := scrape_step_success error_thold symbol fetchO authO
      (chainState symbol hd tl s0 n) (hd n) (tl n) hO (hf n (by omega))
    rw [scrape_loop_next error_thold symbol start_date fetchO authO fuel _ _
      (hg n (by omega)) hstep]
    rfl

/-! ## Lemmas: runs whose fetches all fail -/


theorem fail_state_fetchCalls (symbol : String) (s0 : LoopState) (j : Nat) :
    (fail_state symbol s0 j).fetchCalls = s0.fetchCalls + j := by
  induction j with
  | zero => rfl
  | succ j ih => simp [fail_state, ih]; omega

theorem fail_state_error_count (symbol : String) (s0 : LoopState) (j : Nat) :
    (fail_state symbol s0 j).error_count = s0.error_count + j := by
  induction j with
  | zero => rfl
  | succ j ih => simp [fail_state, ih]; omega

theorem fail_state_date (symbol : String) (s0 : LoopState) (j : Nat) :
    (fail_state symbol s0 j).date = s0.date := by
  induction j with
  | zero => rfl
  | succ j ih => simp [fail_state, ih]

theorem fail_state_ref_token (symbol : String) (s0 : LoopState) (j : Nat) :
    (fail_state symbol s0 j).ref_token = s0.ref_token := by
  induction j with
  | zero => rfl
  | succ j ih => simp [fail_state, ih]

theorem fail_state_authCalls (symbol : String) (s0 : LoopState) (j : Nat) :
    (fail_state symbol s0 j).authCalls = s0.authCalls := by
  induction j with
  | zero => rfl
  | succ j ih => simp [fail_state, ih]

/-- Running the loop through `j` consecutive fetch failures that stay
strictly inside both thresholds consumes one unit of fuel per failure and
lands on the corresponding fail state. -/
theorem scrape_loop_fail_chain (error_thold : Nat) (symbol : String)
    (start_date : DateTime) (fetchO : Nat → FetchOutcome)
    (authO : String → AuthOutcome) (s0 : LoopState) (j : Nat)
    (hc : ∀ m, m < j → fetchO (s0.fetchCalls + m) = .error)
    (hg : DateTime.ltb start_date s0.date = true)
    (hno : ∀ i, 1 ≤ i → i ≤ j →
      s0.error_count + i ≠ error_thold ∧
      s0.error_count + i < error_thold + 5) :
    ∀ fuel, scrape_loop error_thold symbol start_date fetchO authO (j + fuel) s0 =
      scrape_loop error_thold symbol start_date fetchO authO fuel
        (fail_state symbol s0 j) := by
  induction j with
  | zero =>
    intro fuel
    rw [Nat.zero_add]
    rfl
  | succ j ih =>
    intro fuel
    have h1 : j + 1 + fuel = j + (fuel + 1) := by omega
    rw [h1, ih (fun m hm => hc m (by omega)) (fun i h1i h2i => hno i h1i (by omega))]
    have hO : fetchO ((fail_state symbol s0 j).fetchCalls) = .error := by
      rw [fail_state_fetchCalls]
      exact hc j (by omega)
    have hcnt := fail_state_error_count symbol s0 j
    have hstep := scrape_step_error_retry error_thold symbol fetchO authO
      (fail_state symbol s0 j) hO
      (by rw [hcnt]; exact (hno (j + 1) (by omega) (by omega)).1)
      (by rw [hcnt]; have := (hno (j + 1) (by omega) (by omega)).2; omega)
    have hgj : DateTime.ltb start_date (fail_state symbol s0 j).date = true := by
      rw [fail_state_date]; exact hg
    rw [scrape_loop_next error_thold symbol start_date fetchO authO fuel _ _
      hgj hstep]
    rfl

/-! ## Generic facts about the run wrappers -/

/-- However the loop ends, `scrape_finish` emits no terminal report (the
`return` inside the `finally` block preempts lines 286-290). -/
theorem scrape_finish_report (priorRows : List Row) (r : RunResult) :
    (scrape_finish priorRows r).report = none := by
  cases r <;> rfl

/-! ## The claims -/


/-- C1, as stated, is false on the code: on a successful fetch returning
an empty page the loop body does not continue with the repeat flag set —
`items[-1]` raises `IndexError`, which no handler in the loop catches, so
the iteration aborts the loop. -/
theorem C1_counterexample :
    scrape_step 5 "X" (fun _ => FetchOutcome.items [])
      (fun _ => AuthOutcome.error) wstate =
      .exit .emptyPage
        { wstate with fetchCalls := 1, requests := [.tagOnly "X"] } ∧
    scrape_step 5 "X" (fun _ => FetchOutcome.items [])
      (fun _ => AuthOutcome.error) wstate ≠
      .next
        { wstate with repeat_flag := true, fetchCalls := 1,
                      requests := [.tagOnly "X"] } :=
  ⟨by decide, by decide⟩

/-- C1 (amended): for every successful fetch that returns an empty page,
the Driver aborts the run rather than retrying: nothing is written, the
Cursor, repeat flag and error count are unchanged, the loop terminates,
and the store file is closed by the cleanup handler on the way out. -/
theorem C1_empty_page_aborts (error_thold : Nat) (symbol : String)
    (start_date : DateTime) (fetchO : Nat → FetchOutcome)
    (authO : String → AuthOutcome) (fuel : Nat) (s : LoopState)
    (priorRows : List Row)
    (h : fetchO s.fetchCalls = .items [])
    (hg : DateTime.ltb start_date s.date = true) :
    scrape_loop error_thold symbol start_date fetchO authO (fuel + 1) s =
      .done .emptyPage
        { s with fetchCalls := s.fetchCalls + 1,
                 requests := s.requests ++
                   [load_data_body s.page s.last_id symbol] } ∧
    (scrape_finish priorRows
      (scrape_loop error_thold symbol start_date fetchO authO (fuel + 1) s)
      ).fileClosed = true := by
  have hstep := scrape_step_empty error_thold symbol fetchO authO s h
  have h1 := scrape_loop_exit error_thold symbol start_date fetchO authO
    fuel s _ _ hg hstep
  exact ⟨h1, by rw [h1]; rfl⟩

/-- Witness for the amended C1 at a concrete input. -/
theorem C1_empty_page_aborts_witness :
    scrape_loop 5 "X" ⟨2020, 8, 1, 0, 0, 0⟩ (fun _ => FetchOutcome.items [])
      (fun _ => AuthOutcome.error) 3 wstate =
      .done .emptyPage
        { wstate with fetchCalls := wstate.fetchCalls + 1,
                      requests := wstate.requests ++
                        [load_data_body wstate.page wstate.last_id "X"] } ∧
    (scrape_finish []
      (scrape_loop 5 "X" ⟨2020, 8, 1, 0, 0, 0⟩ (fun _ => FetchOutcome.items [])
        (fun _ => AuthOutcome.error) 3 wstate)).fileClosed = true :=
  C1_empty_page_aborts 5 "X" ⟨2020, 8, 1, 0, 0, 0⟩
    (fun _ => FetchOutcome.items []) (fun _ => AuthOutcome.error) 2 wstate []
    rfl (by decide)

/-- C2 is false on the code (a code bug): on exit of the loop for any
reason the driver emits no terminal report at all — the `return` inside
the `finally` block ends `scrape_sahamyab` before the reporting code of
lines 286-290 can run, on every path. -/
theorem C2_no_terminal_report (symbol ref_token : String)
    (error_thold : Nat) (start_date : DateTime) (config0 : ConfigFile)
    (priorDisk : Option (List Row)) (now : DateTime)
    (fetchO : Nat → FetchOutcome) (authO : String → AuthOutcome)
    (fuel : Nat) :
    (scrape_sahamyab symbol ref_token error_thold start_date config0
      priorDisk now fetchO authO fuel).report = none := by
  unfold scrape_sahamyab
  cases authO ref_token with
  | error => rfl
  | ok tt ac rt =>
    cases priorDisk with
    | none => exact scrape_finish_report _ _
    | some l =>
      cases l with
      | nil => rfl
      | cons r rs => exact scrape_finish_report _ _

/-- C3: when `config.json` is absent, `main` synthesizes and persists the
default configuration (whose refresh token is empty) and the scrape stops
at the initial token refresh — which fails on the empty token — before
the destination file is opened or touched. -/
theorem C3_absent_config_default_then_stop
    (priorDisk : Option (List Row)) (now : DateTime)
    (fetchO : Nat → FetchOutcome) (authO : String → AuthOutcome)
    (fuel : Nat) (h : authO "" = .error) :
    py_main .absent priorDisk now fetchO authO fuel =
      { configFS := .valid default_config,
        scraped := some
          { outcome := .initialAuthFailed, disk := priorDisk,
            fileClosed := false, configFS := .valid default_config,
            report := none } } := by
  simp [py_main, scrape_sahamyab, default_config, h]

/-- Witness for C3 at a concrete input. -/
theorem C3_absent_config_default_then_stop_witness :
    py_main .absent (some [⟨"x", ⟨2021, 1, 1, 0, 0, 0⟩, "u", "c"⟩])
      ⟨2025, 1, 1, 0, 0, 0⟩ (fun _ => FetchOutcome.error)
      (fun _ => AuthOutcome.error) 7 =
      { configFS := .valid default_config,
        scraped := some
          { outcome := .initialAuthFailed,
            disk := some [⟨"x", ⟨2021, 1, 1, 0, 0, 0⟩, "u", "c"⟩],
            fileClosed := false, configFS := .valid default_config,
            report := none } } :=
  C3_absent_config_default_then_stop
    (some [⟨"x", ⟨2021, 1, 1, 0, 0, 0⟩, "u", "c"⟩]) ⟨2025, 1, 1, 0, 0, 0⟩
    (fun _ => FetchOutcome.error) (fun _ => AuthOutcome.error) 7 rfl

/-- C4: on fetch success with new content, the loop body clears the
repeat flag, sets the cursor id to the page's last item's id, writes
every record of the page (converting each timestamp), moves `date` to the
page's last item's timestamp, advances the page counter, and resets the
error count to zero. -/
theorem C4_new_content_updates (error_thold : Nat) (symbol : String)
    (fetchO : Nat → FetchOutcome) (authO : String → AuthOutcome)
    (s : LoopState) (i : Item) (is : List Item)
    (h : fetchO s.fetchCalls = .items (i :: is))
    (hid : s.last_id ≠ ((i :: is).getLastD i).id) :
    scrape_step error_thold symbol fetchO authO s =
      .next
        { s with fetchCalls := s.fetchCalls + 1,
                 requests := s.requests ++
                   [load_data_body s.page s.last_id symbol],
                 last_id := ((i :: is).getLastD i).id,
                 rows := s.rows ++ (i :: is).map mkRow,
                 date := to_datetime ((i :: is).getLastD i).sendTime,
                 repeat_flag := false,
                 page := s.page + 1,
                 error_count := 0 } :=
  scrape_step_success error_thold symbol fetchO authO s i is h hid

/-- Witness for C4 at a concrete two-item page. -/
theorem C4_new_content_updates_witness :
    scrape_step 5 "X"
      (fun _ => FetchOutcome.items
        [⟨"p1", "2021-05-02T08:00:00Z", "u1", "hello"⟩,
         ⟨"p2", "2021-05-02T07:59:00Z", "u2", "world"⟩])
      (fun _ => AuthOutcome.error) wstate =
      .next
        { wstate with fetchCalls := 1, requests := [.tagOnly "X"],
                      last_id := "p2",
                      rows := [⟨"p1", ⟨2021, 5, 2, 8, 0, 0⟩, "u1", "hello"⟩,
                               ⟨"p2", ⟨2021, 5, 2, 7, 59, 0⟩, "u2", "world"⟩],
                      date := ⟨2021, 5, 2, 7, 59, 0⟩,
                      repeat_flag := false, page := 1, error_count := 0 } :=
  C4_new_content_updates 5 "X"
    (fun _ => FetchOutcome.items
      [⟨"p1", "2021-05-02T08:00:00Z", "u1", "hello"⟩,
       ⟨"p2", "2021-05-02T07:59:00Z", "u2", "world"⟩])
    (fun _ => AuthOutcome.error) wstate
    ⟨"p1", "2021-05-02T08:00:00Z", "u1", "hello"⟩
    [⟨"p2", "2021-05-02T07:59:00Z", "u2", "world"⟩] rfl (by decide)

/-- C9: the whole of `update_config_refresh_token` never propagates an
exception (read and parse failures are caught, returning with the file
untouched), and when persisting the rotated token fails the reauth path
of the loop still continues with the rotated in-memory credential. -/
theorem C9_update_config_never_raises :
    (∀ (f : ConfigFile) (t : String),
      update_config_refresh_token_exc f t =
        .ok (update_config_refresh_token f t)) ∧
    (∀ (error_thold : Nat) (symbol : String) (fetchO : Nat → FetchOutcome)
      (authO : String → AuthOutcome) (s : LoopState) (tt ac rt e : String),
      fetchO s.fetchCalls = .error →
      s.error_count + 1 = error_thold →
      authO s.ref_token = .ok tt ac rt →
      update_config_attempt s.config rt = .error e →
      scrape_step error_thold symbol fetchO authO s =
        .next
          { s with fetchCalls := s.fetchCalls + 1,
                   requests := s.requests ++
                     [load_data_body s.page s.last_id symbol],
                   error_count := s.error_count + 1,
                   token_type := tt, access_token := ac, ref_token := rt,
                   authCalls := s.authCalls + 1 }) := by
  constructor
  · intro f t
    unfold update_config_refresh_token_exc update_config_refresh_token
    cases update_config_attempt f t <;> rfl
  · intro error_thold symbol fetchO authO s tt ac rt e hf hc ha hu
    rw [scrape_step_error_reauth_ok error_thold symbol fetchO authO s
      tt ac rt hf hc ha]
    have hcfg : update_config_refresh_token s.config rt = s.config := by
      unfold update_config_refresh_token
      rw [hu]
    rw [hcfg]

/-- Witness for C9 at a concrete unparseable config file. -/
theorem C9_update_config_never_raises_witness :
    update_config_refresh_token_exc .invalid "r1" = .ok .invalid ∧
    scrape_step 1 "X" (fun _ => FetchOutcome.error)
      (fun _ => AuthOutcome.ok "B" "a1" "r1")
      { wstate with config := .invalid } =
      .next
        { wstate with config := .invalid, fetchCalls := 1,
                      requests := [.tagOnly "X"], error_count := 1,
                      token_type := "B", access_token := "a1",
                      ref_token := "r1", authCalls := 1 } :=
  ⟨C9_update_config_never_raises.1 .invalid "r1",
   C9_update_config_never_raises.2 1 "X" (fun _ => FetchOutcome.error)
     (fun _ => AuthOutcome.ok "B" "a1" "r1") { wstate with config := .invalid }
     "B" "a1" "r1" "JSONDecodeError" rfl rfl rfl rfl⟩

/-- C10: when the initial token refresh fails, `scrape_sahamyab` returns
before the destination file is opened or created: the store on disk and
the config file are exactly as before. -/
theorem C10_auth_failure_leaves_store_untouched (symbol ref_token : String)
    (error_thold : Nat) (start_date : DateTime) (config0 : ConfigFile)
    (priorDisk : Option (List Row)) (now : DateTime)
    (fetchO : Nat → FetchOutcome) (authO : String → AuthOutcome)
    (fuel : Nat) (h : authO ref_token = .error) :
    scrape_sahamyab symbol ref_token error_thold start_date config0
      priorDisk now fetchO authO fuel =
      { outcome := .initialAuthFailed, disk := priorDisk,
        fileClosed := false, configFS := config0, report := none } := by
  unfold scrape_sahamyab
  rw [h]

/-- Witness for C10 at a concrete input. -/
theorem C10_auth_failure_leaves_store_untouched_witness :
    scrape_sahamyab "X" "bad" 5 ⟨2020, 8, 1, 0, 0, 0⟩ .absent
      (some [⟨"x", ⟨2021, 1, 1, 0, 0, 0⟩, "u", "c"⟩]) ⟨2025, 1, 1, 0, 0, 0⟩
      (fun _ => FetchOutcome.error) (fun _ => AuthOutcome.error) 9 =
      { outcome := .initialAuthFailed,
        disk := some [⟨"x", ⟨2021, 1, 1, 0, 0, 0⟩, "u", "c"⟩],
        fileClosed := false, configFS := .absent, report := none } :=
  C10_auth_failure_leaves_store_untouched "X" "bad" 5 ⟨2020, 8, 1, 0, 0, 0⟩
    .absent (some [⟨"x", ⟨2021, 1, 1, 0, 0, 0⟩, "u", "c"⟩])
    ⟨2025, 1, 1, 0, 0, 0⟩ (fun _ => FetchOutcome.error)
    (fun _ => AuthOutcome.error) 9 rfl

/-! ## Lemmas: the requests actually sent -/


/-- Every iteration of the loop body sends exactly one request, built from
the cursor it entered with. -/
theorem scrape_step_requests (error_thold : Nat) (symbol : String)
    (fetchO : Nat → FetchOutcome) (authO : String → AuthOutcome)
    (s : LoopState) :
    (scrape_step error_thold symbol fetchO authO s).state.requests =
      s.requests ++ [load_data_body s.page s.last_id symbol] := by
  unfold scrape_step
  simp only [Nat.add_sub_cancel]
  cases h : fetchO s.fetchCalls with
  | interrupt => rfl
  | error =>
    by_cases h1 : s.error_count + 1 = error_thold
    · cases h2 : authO s.ref_token <;> simp [h1, h2, StepResult.state]
    · by_cases h3 : error_thold + 5 ≤ s.error_count + 1 <;>
        simp [h1, h3, StepResult.state]
  | items l =>
    cases l with
    | nil => rfl
    | cons i is =>
      by_cases h1 : s.last_id = ((i :: is).getLastD i).id <;>
        simp only [List.getLastD_eq_getLast?] at h1 <;>
        simp [h1, StepResult.state]

/-- Across a whole run, the request log only grows. -/
theorem scrape_loop_requests_mono (error_thold : Nat) (symbol : String)
    (start_date : DateTime) (fetchO : Nat → FetchOutcome)
    (authO : String → AuthOutcome) :
    ∀ (fuel : Nat) (s : LoopState), ∃ l,
      (scrape_loop error_thold symbol start_date fetchO authO fuel s
        ).state.requests = s.requests ++ l := by
  intro fuel
  induction fuel with
  | zero => intro s; exact ⟨[], by simp [scrape_loop, RunResult.state]⟩
  | succ fuel ih =>
    intro s
    by_cases hg : DateTime.ltb start_date s.date = true
    · cases hstep : scrape_step error_thold symbol fetchO authO s with
      | next s2 =>
        rw [scrape_loop_next error_thold symbol start_date fetchO authO
          fuel s s2 hg hstep]
        obtain ⟨l, hl⟩ := ih s2
        have h2 : s2.requests =
            s.requests ++ [load_data_body s.page s.last_id symbol] := by
          have := scrape_step_requests error_thold symbol fetchO authO s
          rw [hstep] at this
          exact this
        exact ⟨[load_data_body s.page s.last_id symbol] ++ l,
          by rw [hl, h2, List.append_assoc]⟩
      | exit r s2 =>
        rw [scrape_loop_exit error_thold symbol start_date fetchO authO
          fuel s s2 r hg hstep]
        have h2 : s2.requests =
            s.requests ++ [load_data_body s.page s.last_id symbol] := by
          have := scrape_step_requests error_thold symbol fetchO authO s
          rw [hstep] at this
          exact this
        exact ⟨[load_data_body s.page s.last_id symbol],
          by simp [RunResult.state, h2]⟩
    · rw [scrape_loop_boundary error_thold symbol start_date fetchO authO
        fuel s (by simpa using hg)]
      exact ⟨[], by simp [RunResult.state]⟩

/-- With the guard true and at least one unit of fuel, the first request
of the run is built from the initial cursor. -/
theorem scrape_loop_first_request (error_thold : Nat) (symbol : String)
    (start_date : DateTime) (fetchO : Nat → FetchOutcome)
    (authO : String → AuthOutcome) (fuel : Nat) (s : LoopState)
    (hg : DateTime.ltb start_date s.date = true) :
    ∃ l, (scrape_loop error_thold symbol start_date fetchO authO (fuel + 1) s
        ).state.requests =
      s.requests ++ [load_data_body s.page s.last_id symbol] ++ l := by
  cases hstep : scrape_step error_thold symbol fetchO authO s with
  | next s2 =>
    rw [scrape_loop_next error_thold symbol start_date fetchO authO
      fuel s s2 hg hstep]
    obtain ⟨l, hl⟩ := scrape_loop_requests_mono error_thold symbol start_date
      fetchO authO fuel s2
    have h2 : s2.requests =
        s.requests ++ [load_data_body s.page s.last_id symbol] := by
      have := scrape_step_requests error_thold symbol fetchO authO s
      rw [hstep] at this
      exact this
    exact ⟨l, by rw [hl, h2]⟩
  | exit r s2 =>
    rw [scrape_loop_exit error_thold symbol start_date fetchO authO
      fuel s s2 r hg hstep]
    have h2 : s2.requests =
        s.requests ++ [load_data_body s.page s.last_id symbol] := by
      have := scrape_step_requests error_thold symbol fetchO authO s
      rw [hstep] at this
      exact this
    exact ⟨[], by simp [RunResult.state, h2]⟩

/-- The final loop state exposed by `scrape_finish` is the run's state. -/
theorem scrape_finish_state (priorRows : List Row) (r : RunResult) :
    (scrape_finish priorRows r).outcome.state? = some r.state := by
  cases r <;> rfl

/-- C7: resuming from a non-empty prior store seeds the cursor with the
id of the store's last physical record and a positive page index, and the
first fetch request of the run therefore carries that id in its body
(`{id, tag}` rather than `{tag}`). -/
theorem C7_resume_seeding (symbol ref_token : String) (error_thold : Nat)
    (start_date : DateTime) (config0 : ConfigFile) (r : Row) (rs : List Row)
    (now : DateTime) (fetchO : Nat → FetchOutcome)
    (authO : String → AuthOutcome) (fuel : Nat) (tt ac rt : String)
    (ha : authO ref_token = .ok tt ac rt)
    (hg : DateTime.ltb start_date now = true)
    (hfuel : 1 ≤ fuel) :
    initial_state tt ac rt now (update_config_refresh_token config0 rt)
        (some (r :: rs)) =
      some (resume_state tt ac rt now
        (update_config_refresh_token config0 rt) r rs) ∧
    (resume_state tt ac rt now (update_config_refresh_token config0 rt)
      r rs).last_id = ((r :: rs).getLastD r).id ∧
    0 < (resume_state tt ac rt now (update_config_refresh_token config0 rt)
      r rs).page ∧
    (∀ sF, (scrape_sahamyab symbol ref_token error_thold start_date config0
        (some (r :: rs)) now fetchO authO fuel).outcome.state? = some sF →
      sF.requests.head? =
        some (.idTag ((r :: rs).getLastD r).id symbol)) := by
  refine ⟨rfl, rfl, Nat.one_pos, ?_⟩
  intro sF hsF
  have hrun : scrape_sahamyab symbol ref_token error_thold start_date config0
      (some (r :: rs)) now fetchO authO fuel =
      scrape_finish (r :: rs)
        (scrape_loop error_thold symbol start_date fetchO authO fuel
          (resume_state tt ac rt now
            (update_config_refresh_token config0 rt) r rs)) := by
    unfold scrape_sahamyab
    rw [ha]
    rfl
  rw [hrun, scrape_finish_state] at hsF
  obtain ⟨f, rfl⟩ : ∃ f, fuel = f + 1 := ⟨fuel - 1, by omega⟩
  obtain ⟨l, hl⟩ := scrape_loop_first_request error_thold symbol start_date
    fetchO authO f
    (resume_state tt ac rt now (update_config_refresh_token config0 rt) r rs)
    hg
  have hsF2 : sF =
      (scrape_loop error_thold symbol start_date fetchO authO (f + 1)
        (resume_state tt ac rt now
          (update_config_refresh_token config0 rt) r rs)).state := by
    exact (Option.some_injective _ hsF).symm
  rw [hsF2, hl]
  simp [resume_state, load_data_body]


/-- Witness for C7 at a concrete one-row prior store. -/
theorem C7_resume_seeding_witness :
    c7sF.requests.head? = some (RequestBody.idTag "42" "X") :=
  (C7_resume_seeding "X" "r0" 5 ⟨2020, 8, 1, 0, 0, 0⟩ .absent
    ⟨"42", ⟨2021, 1, 1, 0, 0, 0⟩, "u", "c"⟩ [] ⟨2025, 1, 1, 0, 0, 0⟩
    (fun _ => FetchOutcome.items [])
    (fun t => if t = "r0" then AuthOutcome.ok "B" "a1" "r1"
              else AuthOutcome.error)
    1 "B" "a1" "r1" rfl (by decide) (by decide)).2.2.2 c7sF (by decide)

/-- After the error count has reached the threshold (reauthentication
already attempted), five further consecutive fetch failures reach the
fatal cap and break the loop, with no further reauthentication. -/
theorem scrape_loop_cap_tail (error_thold : Nat) (symbol : String)
    (start_date : DateTime) (fetchO : Nat → FetchOutcome)
    (authO : String → AuthOutcome) (s2 : LoopState) (g : Nat)
    (hcnt : s2.error_count = error_thold)
    (hg : DateTime.ltb start_date s2.date = true)
    (hO : ∀ m, m < 5 → fetchO (s2.fetchCalls + m) = .error) :
    (scrape_loop error_thold symbol start_date fetchO authO (4 + (g + 1)) s2
      ).reason? = some .errorCap ∧
    (scrape_loop error_thold symbol start_date fetchO authO (4 + (g + 1)) s2
      ).state.fetchCalls = s2.fetchCalls + 5 ∧
    (scrape_loop error_thold symbol start_date fetchO authO (4 + (g + 1)) s2
      ).state.authCalls = s2.authCalls := by
  have hchain := scrape_loop_fail_chain error_thold symbol start_date fetchO
    authO s2 4 (fun m hm => hO m (by omega)) hg
    (fun i h1i h2i => ⟨by omega, by omega⟩)
  rw [hchain (g + 1)]
  have hCfc := fail_state_fetchCalls symbol s2 4
  have hCcnt := fail_state_error_count symbol s2 4
  have hCd := fail_state_date symbol s2 4
  have hCa := fail_state_authCalls symbol s2 4
  have hstep := scrape_step_error_cap error_thold symbol fetchO authO
    (fail_state symbol s2 4)
    (by rw [hCfc]; exact hO 4 (by omega)) (by omega) (by omega)
  rw [scrape_loop_exit error_thold symbol start_date fetchO authO g
    (fail_state symbol s2 4) _ _ (by rw [hCd]; exact hg) hstep]
  refine ⟨rfl, ?_, ?_⟩
  · show (fail_state symbol s2 4).fetchCalls + 1 = s2.fetchCalls + 5
    omega
  · show (fail_state symbol s2 4).authCalls = s2.authCalls
    exact hCa

/-- C6: with every fetch failing and no success in between, the loop
attempts exactly one reauthentication, at the moment the error count
first equals the threshold; on reauthentication success it terminates at
the fatal cap after exactly threshold + 5 fetch calls, and on
reauthentication failure it terminates at once after exactly threshold
fetch calls.  In both cases the loop is done, so no further network
calls occur. -/
theorem C6_error_thresholds (error_thold : Nat) (symbol : String)
    (start_date : DateTime) (fetchO : Nat → FetchOutcome)
    (authO : String → AuthOutcome) (s : LoopState) (A : AuthOutcome)
    (fuel : Nat)
    (hth : 1 ≤ error_thold)
    (hg : DateTime.ltb start_date s.date = true)
    (hec : s.error_count = 0)
    (hO : ∀ m, m < error_thold + 5 → fetchO (s.fetchCalls + m) = .error)
    (hA : authO s.ref_token = A)
    (hfuel : error_thold + 5 ≤ fuel) :
    match A with
    | .ok _ _ _ =>
        (scrape_loop error_thold symbol start_date fetchO authO fuel s
          ).reason? = some .errorCap ∧
        (scrape_loop error_thold symbol start_date fetchO authO fuel s
          ).state.fetchCalls = s.fetchCalls + (error_thold + 5) ∧
        (scrape_loop error_thold symbol start_date fetchO authO fuel s
          ).state.authCalls = s.authCalls + 1
    | .error =>
        (scrape_loop error_thold symbol start_date fetchO authO fuel s
          ).reason? = some .authFail ∧
        (scrape_loop error_thold symbol start_date fetchO authO fuel s
          ).state.fetchCalls = s.fetchCalls + error_thold ∧
        (scrape_loop error_thold symbol start_date fetchO authO fuel s
          ).state.authCalls = s.authCalls + 1 := by
  obtain ⟨f, hfe⟩ : ∃ f, fuel = (error_thold - 1) + ((4 + (f + 1)) + 1) :=
    ⟨fuel - (error_thold + 5), by omega⟩
  subst hfe
  have hchain1 := scrape_loop_fail_chain error_thold symbol start_date fetchO
    authO s (error_thold - 1) (fun m hm => hO m (by omega)) hg
    (fun i h1i h2i => ⟨by omega, by omega⟩)
  have hA1fc := fail_state_fetchCalls symbol s (error_thold - 1)
  have hA1cnt := fail_state_error_count symbol s (error_thold - 1)
  have hA1d := fail_state_date symbol s (error_thold - 1)
  have hA1rt := fail_state_ref_token symbol s (error_thold - 1)
  have hA1ac := fail_state_authCalls symbol s (error_thold - 1)
  have hOA1 : fetchO ((fail_state symbol s (error_thold - 1)).fetchCalls) =
      .error := by
    rw [hA1fc]; exact hO (error_thold - 1) (by omega)
  have hgA1 : DateTime.ltb start_date
      (fail_state symbol s (error_thold - 1)).date = true := by
    rw [hA1d]; exact hg
  cases A with
  | error =>
    have hstep := scrape_step_error_reauth_fail error_thold symbol fetchO
      authO (fail_state symbol s (error_thold - 1)) hOA1 (by omega)
      (by rw [hA1rt]; exact hA)
    rw [hchain1 ((4 + (f + 1)) + 1),
      scrape_loop_exit error_thold symbol start_date fetchO authO
        (4 + (f + 1)) (fail_state symbol s (error_thold - 1)) _ _ hgA1 hstep]
    refine ⟨rfl, ?_, ?_⟩
    · show (fail_state symbol s (error_thold - 1)).fetchCalls + 1 =
        s.fetchCalls + error_thold
      omega
    · show (fail_state symbol s (error_thold - 1)).authCalls + 1 =
        s.authCalls + 1
      omega
  | ok tt ac2 rt2 =>
    have hstep := scrape_step_error_reauth_ok error_thold symbol fetchO
      authO (fail_state symbol s (error_thold - 1)) tt ac2 rt2 hOA1
      (by omega) (by rw [hA1rt]; exact hA)
    rw [hchain1 ((4 + (f + 1)) + 1),
      scrape_loop_next error_thold symbol start_date fetchO authO
        (4 + (f + 1)) (fail_state symbol s (error_thold - 1)) _ hgA1 hstep]
    have hcap := scrape_loop_cap_tail error_thold symbol start_date fetchO
      authO
      { fail_state symbol s (error_thold - 1) with
        fetchCalls := (fail_state symbol s (error_thold - 1)).fetchCalls + 1,
        requests := (fail_state symbol s (error_thold - 1)).requests ++
          [load_data_body (fail_state symbol s (error_thold - 1)).page
            (fail_state symbol s (error_thold - 1)).last_id symbol],
        error_count := (fail_state symbol s (error_thold - 1)).error_count + 1,
        token_type := tt, access_token := ac2, ref_token := rt2,
        config := update_config_refresh_token
          (fail_state symbol s (error_thold - 1)).config rt2,
        authCalls := (fail_state symbol s (error_thold - 1)).authCalls + 1 }
      f (by show (fail_state symbol s (error_thold - 1)).error_count + 1 =
              error_thold
            omega)
      (by show DateTime.ltb start_date
            (fail_state symbol s (error_thold - 1)).date = true
          exact hgA1)
      (fun m hm => by
        show fetchO ((fail_state symbol s (error_thold - 1)).fetchCalls +
          1 + m) = .error
        have h5 : (fail_state symbol s (error_thold - 1)).fetchCalls +
            1 + m = s.fetchCalls + (error_thold + m) := by
          rw [hA1fc]; omega
        rw [h5]
        exact hO (error_thold + m) (by omega))
    refine ⟨hcap.1, ?_, ?_⟩
    · rw [hcap.2.1]
      show (fail_state symbol s (error_thold - 1)).fetchCalls + 1 + 5 =
        s.fetchCalls + (error_thold + 5)
      omega
    · rw [hcap.2.2]
      show (fail_state symbol s (error_thold - 1)).authCalls + 1 =
        s.authCalls + 1
      omega

/-- Witness for C6 at threshold 1 with a succeeding reauthentication:
the loop caps out after six failed fetches and one reauth call. -/
theorem C6_error_thresholds_witness :
    (scrape_loop 1 "X" ⟨2020, 8, 1, 0, 0, 0⟩ (fun _ => FetchOutcome.error)
      (fun _ => AuthOutcome.ok "B" "a1" "r1") 6 wstate).reason? =
      some .errorCap ∧
    (scrape_loop 1 "X" ⟨2020, 8, 1, 0, 0, 0⟩ (fun _ => FetchOutcome.error)
      (fun _ => AuthOutcome.ok "B" "a1" "r1") 6 wstate).state.fetchCalls =
      wstate.fetchCalls + (1 + 5) ∧
    (scrape_loop 1 "X" ⟨2020, 8, 1, 0, 0, 0⟩ (fun _ => FetchOutcome.error)
      (fun _ => AuthOutcome.ok "B" "a1" "r1") 6 wstate).state.authCalls =
      wstate.authCalls + 1 :=
  C6_error_thresholds 1 "X" ⟨2020, 8, 1, 0, 0, 0⟩
    (fun _ => FetchOutcome.error) (fun _ => AuthOutcome.ok "B" "a1" "r1")
    wstate (AuthOutcome.ok "B" "a1" "r1") 6 (by decide) (by decide) rfl
    (by decide) rfl (by decide)

/-- C5: against a schedule of nonempty fresh pages whose timestamps stay
after the boundary up to page `N` and cross it at page `N`, the loop
keeps iterating exactly while the most recently seen timestamp is after
the boundary and terminates (with fuel to spare) right after writing page
`N`, having fetched exactly `N + 1` pages. -/
theorem C5_boundary_termination (error_thold : Nat) (symbol : String)
    (start_date : DateTime) (fetchO : Nat → FetchOutcome)
    (authO : String → AuthOutcome) (hd : Nat → Item) (tl : Nat → List Item)
    (s0 : LoopState) (N fuel : Nat)
    (hc : ∀ m, m ≤ N → fetchO (s0.fetchCalls + m) = .items (hd m :: tl m))
    (h0 : s0.last_id ≠ (page_last hd tl 0).id)
    (hfr : ∀ m, m < N →
      (page_last hd tl m).id ≠ (page_last hd tl (m + 1)).id)
    (hg0 : DateTime.ltb start_date s0.date = true)
    (hgm : ∀ m, m < N →
      DateTime.ltb start_date
        (to_datetime (page_last hd tl m).sendTime) = true)
    (hN : DateTime.ltb start_date
      (to_datetime (page_last hd tl N).sendTime) = false)
    (hfuel : N + 2 ≤ fuel) :
    scrape_loop error_thold symbol start_date fetchO authO fuel s0 =
      .done .boundary (chainState symbol hd tl s0 (N + 1)) ∧
    (chainState symbol hd tl s0 (N + 1)).fetchCalls =
      s0.fetchCalls + (N + 1) ∧
    (chainState symbol hd tl s0 (N + 1)).date =
      to_datetime (page_last hd tl N).sendTime := by
  refine ⟨?_, chainState_fetchCalls symbol hd tl s0 (N + 1),
    chainState_date_succ symbol hd tl s0 N⟩
  obtain ⟨f, hfe⟩ : ∃ f, fuel = (N + 1) + (f + 1) :=
    ⟨fuel - (N + 2), by omega⟩
  subst hfe
  have hg2 : ∀ m, m < N + 1 →
      DateTime.ltb start_date (chainState symbol hd tl s0 m).date = true := by
    intro m hm
    cases m with
    | zero => exact hg0
    | succ j =>
      rw [chainState_date_succ]
      exact hgm j (by omega)
  have hf2 : ∀ m, m < N + 1 →
      (chainState symbol hd tl s0 m).last_id ≠ (page_last hd tl m).id := by
    intro m hm
    cases m with
    | zero => exact h0
    | succ j =>
      rw [chainState_last_id_succ]
      exact hfr j (by omega)
  rw [scrape_loop_chain error_thold symbol start_date fetchO authO hd tl s0
    (N + 1) (fun m hm => hc m (by omega)) hg2 hf2 (f + 1)]
  rw [scrape_loop_boundary error_thold symbol start_date fetchO authO f _
    (by rw [chainState_date_succ]; exact hN)]




/-- Witness for C5: the run crosses the 2020-08-01 boundary on its second
page and stops right after it. -/
theorem C5_boundary_termination_witness :
    scrape_loop 5 "X" ⟨2020, 8, 1, 0, 0, 0⟩ w5fetch
      (fun _ => AuthOutcome.error) 3 wstate =
      .done .boundary (chainState "X" w5hd w5tl wstate 2) ∧
    (chainState "X" w5hd w5tl wstate 2).fetchCalls =
      wstate.fetchCalls + (1 + 1) ∧
    (chainState "X" w5hd w5tl wstate 2).date =
      to_datetime (page_last w5hd w5tl 1).sendTime :=
  C5_boundary_termination 5 "X" ⟨2020, 8, 1, 0, 0, 0⟩ w5fetch
    (fun _ => AuthOutcome.error) w5hd w5tl wstate 1 3
    (by decide) (by decide) (by decide) (by decide) (by decide) (by decide)
    (by decide)


/-- C8: a `KeyboardInterrupt` arriving during the fetch of page `k` (after
`k` pages were fetched and written) still routes through the `finally`
block: the store is closed before `scrape_sahamyab` returns and every row
appended before the interruption is on disk. -/
theorem C8_interrupt_closes_store (symbol ref_token : String)
    (error_thold : Nat) (start_date : DateTime) (config0 : ConfigFile)
    (now : DateTime) (fetchO : Nat → FetchOutcome)
    (authO : String → AuthOutcome) (hd : Nat → Item) (tl : Nat → List Item)
    (k fuel : Nat) (tt ac rt : String)
    (ha : authO ref_token = .ok tt ac rt)
    (hc : ∀ m, m < k → fetchO m = .items (hd m :: tl m))
    (hint : fetchO k = .interrupt)
    (h0 : 0 < k → "" ≠ (page_last hd tl 0).id)
    (hfr : ∀ m, m + 1 < k →
      (page_last hd tl m).id ≠ (page_last hd tl (m + 1)).id)
    (hg0 : DateTime.ltb start_date now = true)
    (hgm : ∀ m, m < k →
      DateTime.ltb start_date
        (to_datetime (page_last hd tl m).sendTime) = true)
    (hfuel : k + 1 ≤ fuel) :
    scrape_sahamyab symbol ref_token error_thold start_date config0 none
      now fetchO authO fuel =
      { outcome := .finished .interrupted
          (interrupted_state symbol (chainState symbol hd tl
            (fresh_state tt ac rt now
              (update_config_refresh_token config0 rt)) k)),
        disk := some ((List.range k).flatMap
          (fun j => (hd j :: tl j).map mkRow)),
        fileClosed := true,
        configFS := (chainState symbol hd tl
          (fresh_state tt ac rt now
            (update_config_refresh_token config0 rt)) k).config,
        report := none } := by
  have hrun : scrape_sahamyab symbol ref_token error_thold start_date config0
      none now fetchO authO fuel =
      scrape_finish []
        (scrape_loop error_thold symbol start_date fetchO authO fuel
          (fresh_state tt ac rt now
            (update_config_refresh_token config0 rt))) := by
    unfold scrape_sahamyab
    rw [ha]
    rfl
  rw [hrun]
  obtain ⟨f, hfe⟩ : ∃ f, fuel = k + (f + 1) := ⟨fuel - (k + 1), by omega⟩
  subst hfe
  have hg2 : ∀ m, m < k →
      DateTime.ltb start_date (chainState symbol hd tl
        (fresh_state tt ac rt now
          (update_config_refresh_token config0 rt)) m).date = true := by
    intro m hm
    cases m with
    | zero => exact hg0
    | succ j =>
      rw [chainState_date_succ]
      exact hgm j (by omega)
  have hf2 : ∀ m, m < k →
      (chainState symbol hd tl (fresh_state tt ac rt now
        (update_config_refresh_token config0 rt)) m).last_id ≠
        (page_last hd tl m).id := by
    intro m hm
    cases m with
    | zero => exact h0 hm
    | succ j =>
      rw [chainState_last_id_succ]
      exact hfr j (by omega)
  rw [scrape_loop_chain error_thold symbol start_date fetchO authO hd tl
    (fresh_state tt ac rt now (update_config_refresh_token config0 rt)) k
    (fun m hm => by simpa [fresh_state] using hc m hm) hg2 hf2 (f + 1)]
  have hgk : DateTime.ltb start_date (chainState symbol hd tl
      (fresh_state tt ac rt now
        (update_config_refresh_token config0 rt)) k).date = true := by
    cases k with
    | zero => exact hg0
    | succ j =>
      rw [chainState_date_succ]
      exact hgm j (by omega)
  have hOk : fetchO ((chainState symbol hd tl (fresh_state tt ac rt now
      (update_config_refresh_token config0 rt)) k).fetchCalls) =
      .interrupt := by
    rw [chainState_fetchCalls]
    simpa [fresh_state] using hint
  have hstep := scrape_step_interrupt error_thold symbol fetchO authO
    (chainState symbol hd tl (fresh_state tt ac rt now
      (update_config_refresh_token config0 rt)) k) hOk
  rw [scrape_loop_exit error_thold symbol start_date fetchO authO f _ _ _
    hgk hstep]
  have hrows : (chainState symbol hd tl (fresh_state tt ac rt now
      (update_config_refresh_token config0 rt)) k).rows =
      (List.range k).flatMap (fun j => (hd j :: tl j).map mkRow) := by
    rw [chainState_rows]
    rfl
  simp [scrape_finish, interrupted_state, hrows]



/-- Witness for C8: interrupted during the second fetch, the run returns
with the store closed and the first page's row on disk. -/
theorem C8_interrupt_closes_store_witness :
    scrape_sahamyab "X" "r0" 5 ⟨2020, 8, 1, 0, 0, 0⟩
      (ConfigFile.valid default_config) none ⟨2025, 1, 1, 0, 0, 0⟩
      w8fetch w8auth 2 =
      { outcome := .finished .interrupted
          (interrupted_state "X" (chainState "X" w5hd w5tl
            (fresh_state "B" "a1" "r1" ⟨2025, 1, 1, 0, 0, 0⟩
              (update_config_refresh_token
                (ConfigFile.valid default_config) "r1")) 1)),
        disk := some ((List.range 1).flatMap
          (fun j => (w5hd j :: w5tl j).map mkRow)),
        fileClosed := true,
        configFS := (chainState "X" w5hd w5tl
          (fresh_state "B" "a1" "r1" ⟨2025, 1, 1, 0, 0, 0⟩
            (update_config_refresh_token
              (ConfigFile.valid default_config) "r1")) 1).config,
        report := none } :=
  C8_interrupt_closes_store "X" "r0" 5 ⟨2020, 8, 1, 0, 0, 0⟩
    (ConfigFile.valid default_config) ⟨2025, 1, 1, 0, 0, 0⟩ w8fetch w8auth
    w5hd w5tl 1 2 "B" "a1" "r1" rfl (by decide) rfl (by decide)
    (fun m hm => absurd hm (by omega)) (by decide) (by decide) (by decide)
